import Mathlib

set_option maxRecDepth 8000

/-!
Verification of the Coastal Tide Escapes booking backend.

The development shallowly embeds the quote-pricing widget
(the cte-booking-form submit handler with its helpers `mdKey`, `isWeekend`,
`nightlyRate`, `inDiscountWindow`, `nightsBetween`) and the server routes
(`toCents`, `postJsonFollowRedirectPreserveMethod`, `POST /create-checkout`,
`POST /track-event`) and proves the specified properties about them.

Modelling conventions:
* A calendar date is a day number `z : Nat` counted from 0000-03-01 of the
  proleptic Gregorian calendar (the era origin of the standard
  civil-from-days conversion); 1970-01-01 is day 719468.  The widget builds
  dates with `new Date(y, m-1, d)` and steps nights by adding 86400000 ms;
  on a DST-free clock (the server runs in UTC) one such step is exactly one
  calendar day, so dates are faithfully the day numbers.
* Money values are exact rationals.  The source computes in JS numbers; the
  spec fixes the intent as decimal-safe arithmetic, and the decimal
  literals of the source (0.10, 0.07, 150, the rate table) are mapped to
  the equal rational constants.
* JS runtime values reaching the route handlers are modelled by `JsVal`
  with JS truthiness; `Number(x)` by `jsToNumber` (decimal string forms;
  hex and exponent forms are not modelled, no claim depends on them).
* Each `fetch` call is one atomic request/response exchange against a
  deterministic network oracle indexed by the call count; the issued
  requests are recorded in a trace.  A request records its method, target,
  serialized body, redirect mode and the abort-timer bound attached to it
  (`none` when the fetch is issued with no signal).  `JSON.stringify` is
  deterministic, so a body serialized once and reused models the source
  serializing the same object twice.
-/

namespace CTE

/-! ## Calendar: civil dates as day numbers -/

/-- Month and day (and year) of a day number, by the standard
civil-from-days conversion (Gregorian calendar, era origin 0000-03-01).
Returns `(year, month, day)`. -/
def civilFromDays (z : Nat) : Nat × Nat × Nat :=
  let era := z / 146097
  let doe := z % 146097
  let yoe := (doe - doe / 1460 + doe / 36524 - doe / 146096) / 365
  let doy := doe - (365 * yoe + yoe / 4 - yoe / 100)
  let mp := (5 * doy + 2) / 153
  let d := doy - (153 * mp + 2) / 5 + 1
  let m := if mp < 10 then mp + 3 else mp - 9
  (yoe + era * 400 + (if m ≤ 2 then 1 else 0), m, d)

/-- Day number of a civil date (inverse direction, used to place the
concrete dates of the scenarios). -/
def daysFromCivil (y m d : Nat) : Nat :=
  let y' := if m ≤ 2 then y - 1 else y
  let era := y' / 400
  let yoe := y' % 400
  let doy := (153 * (if 2 < m then m - 3 else m + 9) + 2) / 5 + d - 1
  era * 146097 + (yoe * 365 + yoe / 4 - yoe / 100 + doy)

/-- Month of a day number. -/
def monthOf (z : Nat) : Nat := (civilFromDays z).2.1

/-- Day-of-month of a day number. -/
def dayOf (z : Nat) : Nat := (civilFromDays z).2.2

/-- JS `Date.prototype.getDay`: 0 = Sunday … 6 = Saturday.
Day 719468 (1970-01-01) was a Thursday (4), and 719468 % 7 = 1. -/
def jsGetDay (z : Nat) : Nat := (z + 3) % 7

/-! ## The widget's date helpers (cte-booking-form) -/

/-- Source `pad2`: `String(n).padStart(2, "0")`. -/
def pad2 (n : Nat) : String :=
  let s := toString n
  if s.length < 2 then "0" ++ s else s

/-- Source `mdKey(d)`: the zero-padded `"MM-DD"` key of a date. -/
def mdKey (z : Nat) : String :=
  pad2 (monthOf z) ++ "-" ++ pad2 (dayOf z)

/-- JS string `<`: lexicographic on the code units. -/
def jsStrLtChars : List Char → List Char → Bool
  | [], [] => false
  | [], _ :: _ => true
  | _ :: _, [] => false
  | a :: as, b :: bs => a.val < b.val || (a == b && jsStrLtChars as bs)

/-- JS string `<=` (`a <= b` is `!(b < a)`). -/
def jsStrLe (a b : String) : Bool := !(jsStrLtChars b.data a.data)

/-- Source `isWeekend(date)`: `getDay()` is 5 (Friday) or 6 (Saturday). -/
def isWeekend (z : Nat) : Bool :=
  let day := jsGetDay z
  day == 5 || day == 6

/-- Source `nightlyRate(date)`: first matching month-day window wins, the
final row is the unconditional fallback.  The source compares the padded
`"MM-DD"` strings with JS string comparison, embedded here as the `String`
linear order (both are lexicographic on the code units). -/
def nightlyRate (z : Nat) : ℚ :=
  let md := mdKey z
  let wknd := isWeekend z
  if jsStrLe "04-01" md && jsStrLe md "08-31" then (if wknd then 325 else 300)
  else if (jsStrLe "03-01" md && jsStrLe md "03-31") ||
      (jsStrLe "09-01" md && jsStrLe md "10-31") then
    (if wknd then 275 else 250)
  else (if wknd then 250 else 225)

/-- Source `nightsBetween(ci, co)`: `Math.round((co - ci) / 86400000)`.
With day numbers the quotient is exact. -/
def nightsBetween (ci co : Nat) : Nat := co - ci

/-- Source `inDiscountWindow(ci, co)`: at least 3 nights and some night
(checkin inclusive to checkout exclusive) with month-day key inside
`"04-01" .. "08-31"`. -/
def inDiscountWindow (ci co : Nat) : Bool :=
  let nights := nightsBetween ci co
  if nights < 3 then false
  else
    (List.range nights).any fun i =>
      let md := mdKey (ci + i)
      jsStrLe "04-01" md && jsStrLe md "08-31"

/-! ## The widget's quote computation (submit handler) -/

/-- The quote the submit handler stores in `lastBooking` (the pricing
fields; the contact and ISO-string fields carry no pricing logic). -/
structure Quote where
  nights : Nat
  guests : Int
  lodging : ℚ
  cleaning : ℚ
  preTaxTotal : ℚ
  discountApplied : Bool
  discountAmount : ℚ
  taxAmount : ℚ
  grandTotal : ℚ
  rateModeLabel : String
  deriving DecidableEq, Repr

/-- The submit handler's validation and quote computation: `none` models an
early return via `setError`.  `guests` comes from `parseInt`; a NaN guest
count fails the same `!guests || guests < 1 || guests > 9` branch as a
value below 1, so the check is embedded as the range test. -/
def submitQuote (ci co : Nat) (guests : Int) : Option Quote :=
  if co ≤ ci then none
  else if guests < 1 ∨ 9 < guests then none
  else
    let nights := nightsBetween ci co
    if nights = 0 then none
    else
      let lodging : ℚ :=
        (List.range nights).foldl (fun acc i => acc + nightlyRate (ci + i)) 0
      let cleaning : ℚ := 150
      let taxRate : ℚ := 0.07
      let preTax0 := lodging + cleaning
      if inDiscountWindow ci co then
        let discountAmount := preTax0 * 0.10
        let preTax := preTax0 - discountAmount
        let tax := preTax * taxRate
        some { nights := nights, guests := guests, lodging := lodging,
               cleaning := cleaning, preTaxTotal := preTax,
               discountApplied := true, discountAmount := discountAmount,
               taxAmount := tax, grandTotal := preTax + tax,
               rateModeLabel := "Direct Booking Discount Applied" }
      else
        let tax := preTax0 * taxRate
        some { nights := nights, guests := guests, lodging := lodging,
               cleaning := cleaning, preTaxTotal := preTax0,
               discountApplied := false, discountAmount := 0,
               taxAmount := tax, grandTotal := preTax0 + tax,
               rateModeLabel := "Standard Rate" }

/-! ## Spec-side month-day windows

The claims describe the rate windows as month-day ranges (for example
Apr 1 to Aug 31).  These definitions state that reading directly, as the
lexicographic order on (month, day); the bridge lemmas below relate them
to the string comparisons of the source. -/

/-- Month-day lexicographic order. -/
def mdLe (m1 d1 m2 d2 : Nat) : Prop := m1 < m2 ∨ (m1 = m2 ∧ d1 ≤ d2)

instance (m1 d1 m2 d2 : Nat) : Decidable (mdLe m1 d1 m2 d2) :=
  inferInstanceAs (Decidable (_ ∨ _))

/-- Month-day within Apr 1 to Aug 31 (the peak window). -/
def peakMD (m d : Nat) : Prop := mdLe 4 1 m d ∧ mdLe m d 8 31

/-- Month-day within Mar 1 to Mar 31 or Sep 1 to Oct 31 (the shoulder
windows). -/
def shoulderMD (m d : Nat) : Prop :=
  (mdLe 3 1 m d ∧ mdLe m d 3 31) ∨ (mdLe 9 1 m d ∧ mdLe m d 10 31)

instance (m d : Nat) : Decidable (peakMD m d) := inferInstanceAs (Decidable (_ ∧ _))

instance (m d : Nat) : Decidable (shoulderMD m d) := inferInstanceAs (Decidable (_ ∨ _))

/-! ## JS runtime values -/

/-- A JS number: NaN, an infinity, or a finite value (exact rational). -/
inductive JsNum where
  | nan
  | posInf
  | negInf
  | fin (q : ℚ)
  deriving DecidableEq

/-- A JS value as it reaches the route handlers from the parsed JSON body
(and the absent-field value `undefined`). -/
inductive JsVal where
  | undef
  | null
  | bool (b : Bool)
  | num (x : JsNum)
  | str (s : String)
  deriving DecidableEq

/-- JS truthiness of a number: NaN and 0 are falsy, infinities truthy. -/
def JsNum.truthy : JsNum → Bool
  | .nan => false
  | .posInf => true
  | .negInf => true
  | .fin q => !(q == 0)

/-- JS truthiness. -/
def jsTruthy : JsVal → Bool
  | .undef => false
  | .null => false
  | .bool b => b
  | .num x => x.truthy
  | .str s => !(s == "")

/-- JS falsiness (the `!x` test of the validation guards). -/
def jsFalsy (v : JsVal) : Bool := !jsTruthy v

/-- JS `a || b`. -/
def jsOr (a b : JsVal) : JsVal := if jsTruthy a then a else b

/-- Digits of a decimal string, most significant first. -/
def parseNatCharsAux : List Char → Nat → Option Nat
  | [], acc => some acc
  | c :: cs, acc =>
    if c.isDigit then parseNatCharsAux cs (acc * 10 + (c.toNat - 48)) else none

/-- A nonempty all-digit character list as a natural number. -/
def parseNatChars : List Char → Option Nat
  | [] => none
  | c :: cs => parseNatCharsAux (c :: cs) 0

/-- An unsigned decimal numeral, with an optional fractional part, as an
exact rational. -/
def parseDecimalChars (cs : List Char) : Option ℚ :=
  match cs.splitOn '.' with
  | [intPart] => (parseNatChars intPart).map (fun n => (n : ℚ))
  | [intPart, fracPart] =>
    match parseNatChars intPart, parseNatChars fracPart with
    | some n, some f => some ((n : ℚ) + (f : ℚ) / (10 : ℚ) ^ fracPart.length)
    | _, _ => none
  | _ => none

/-- Model of `Number(string)`: trimmed empty string is 0, the infinity
words, then plain signed decimal forms; anything else is NaN.  (Hex and
exponent forms are not modelled; no claim depends on them.) -/
def parseJsNumberStr (s : String) : JsNum :=
  let t := s.trim
  if t = "" then .fin 0
  else if t = "Infinity" ∨ t = "+Infinity" then .posInf
  else if t = "-Infinity" then .negInf
  else
    match t.data with
    | '-' :: rest =>
      match parseDecimalChars rest with
      | some q => .fin (-q)
      | none => .nan
    | '+' :: rest =>
      match parseDecimalChars rest with
      | some q => .fin q
      | none => .nan
    | cs =>
      match parseDecimalChars cs with
      | some q => .fin q
      | none => .nan

/-- JS `Number(x)`. -/
def jsToNumber : JsVal → JsNum
  | .undef => .nan
  | .null => .fin 0
  | .bool b => .fin (if b then 1 else 0)
  | .num x => x
  | .str s => parseJsNumberStr s

/-- JS `String(x)`.  A finite number is rendered through the rational's
canonical form; the exact JS decimal formatting is not needed by any
claim. -/
def jsToString : JsVal → String
  | .undef => "undefined"
  | .null => "null"
  | .bool b => if b then "true" else "false"
  | .num .nan => "NaN"
  | .num .posInf => "Infinity"
  | .num .negInf => "-Infinity"
  | .num (.fin q) => toString q
  | .str s => s

/-- JS `Math.round`: nearest integer, halves toward positive infinity. -/
def jsMathRound (q : ℚ) : Int := ⌊q + 1 / 2⌋

/-- Server `toCents`: `Number(total)`, `null` when not finite, else
`Math.round(num * 100)`. -/
def toCents (total : JsVal) : Option Int :=
  match jsToNumber total with
  | .fin num => some (jsMathRound (num * 100))
  | _ => none

/-- The claims' reading of an invalid total: the caller-supplied total is
non-finite or converts to fewer than 1 cent. -/
def invalidTotalSpec (v : JsVal) : Prop :=
  toCents v = none ∨ ∃ c, toCents v = some c ∧ c < 1

/-- Server `normalizePhoneE164` (on `String(input || "")`). -/
def normalizePhoneE164 (input : JsVal) : String :=
  let s := (if jsTruthy input then jsToString input else "").trim
  let digits := s.data.filter Char.isDigit
  if digits.length = 10 then "+1" ++ String.mk digits
  else if digits.length = 11 ∧ digits.head? = some '1' then "+" ++ String.mk digits
  else if s.startsWith "+" ∧ 10 ≤ digits.length then "+" ++ String.mk digits
  else s

/-! ## The network model

Each `fetch` call is one atomic exchange: the request is appended to the
trace and the response is read from the oracle at the index of the call.
A rejected fetch promise (network failure, or the abort timer firing) is
`FetchResult.err`.  The projections `paymentLinkUrl` and `jsonOk` model
what `JSON.parse` of the response text would yield; the oracle supplies
them directly instead of re-implementing a JSON parser. -/

structure Request where
  method : String
  url : String
  body : String
  redirectMode : String
  timeoutMs : Option Nat
  deriving DecidableEq

structure Response where
  status : Nat
  location : Option String
  paymentLinkUrl : Option String
  jsonOk : Bool
  raw : String
  deriving DecidableEq

/-- JS `res.ok`: status in 200..299. -/
def Response.okFlag (r : Response) : Bool := 200 ≤ r.status && r.status ≤ 299

inductive FetchResult where
  | ok (r : Response)
  | err
  deriving DecidableEq

structure NetState where
  oracle : Nat → FetchResult
  trace : List Request

/-- One `fetch` call: record the request, read the oracle. -/
def doFetch (req : Request) (s : NetState) : FetchResult × NetState :=
  (s.oracle s.trace.length, { s with trace := s.trace ++ [req] })

/-- The value `postJsonFollowRedirectPreserveMethod` resolves with. -/
structure DeliveryResult where
  status : Nat
  redirectedFrom : Option String
  redirectedTo : Option String
  jsonOk : Bool
  raw : String
  deriving DecidableEq

/-- The non-redirected return value (the common tail of the source). -/
def plainDelivery (r : Response) : DeliveryResult :=
  { status := r.status, redirectedFrom := none, redirectedTo := none,
    jsonOk := r.jsonOk, raw := r.raw }

/-- The redirect statuses the source checks for. -/
def isRedirectStatus (n : Nat) : Bool :=
  n == 301 || n == 302 || n == 303 || n == 307 || n == 308

/-- The first fetch's options object: a POST with `redirect: "manual"`
and the abort signal of a `timeoutMs` timer. -/
def initialWebhookRequest (url body : String) (timeoutMs : Nat) : Request :=
  { method := "POST", url := url, body := body,
    redirectMode := "manual", timeoutMs := some timeoutMs }

/-- The re-issued fetch's options object: a POST to the redirect target;
the source passes no `redirect` option (so the default "follow") and no
signal. -/
def redirectHopRequest (loc body : String) : Request :=
  { method := "POST", url := loc, body := body,
    redirectMode := "follow", timeoutMs := none }

/-- Source `postJsonFollowRedirectPreserveMethod(url, body, timeoutMs)`:
an initial POST with `redirect: "manual"` under an abort timer; when the
response is a 301/302/303/307/308 with a truthy `location` header
(`headers.get` is null for an absent header, and a present header string
is truthy exactly when non-empty), one further POST of the same
serialized body to that location, with the default redirect mode and no
signal attached; otherwise the first response is returned.  `body` is
the `JSON.stringify` output, computed once here because `stringify` is
deterministic where the source calls it twice on the same object.  An
`Except.error` is the function rejecting (a thrown fetch error). -/
def postJsonFollowRedirectPreserveMethod (url body : String) (timeoutMs : Nat)
    (s : NetState) : Except Unit DeliveryResult × NetState :=
  let (r1, s1) := doFetch (initialWebhookRequest url body timeoutMs) s
  match r1 with
  | .err => (.error (), s1)
  | .ok res =>
    if isRedirectStatus res.status then
      match res.location with
      | some loc =>
        if loc ≠ "" then
          let (r2, s2) := doFetch (redirectHopRequest loc body) s1
          match r2 with
          | .err => (.error (), s2)
          | .ok res2 =>
            (.ok { status := res2.status, redirectedFrom := some url,
                   redirectedTo := some loc, jsonOk := res2.jsonOk,
                   raw := res2.raw }, s2)
        else (.ok (plainDelivery res), s1)
      | none => (.ok (plainDelivery res), s1)
    else (.ok (plainDelivery res), s1)

/-! ## The server routes (src/server.js, first document) -/

/-- The environment configuration; an unset variable is the empty string
(both are falsy in the source's guards). -/
structure Config where
  squareAccessToken : String
  squareLocationId : String
  squareEnv : String
  squareVersion : String
  sheetsWebhookUrl : String
  sheetsWebhookSecret : String

def squareBaseUrl (cfg : Config) : String :=
  if cfg.squareEnv = "sandbox" then "https://connect.squareupsandbox.com"
  else "https://connect.squareup.com"

/-- The per-request nondeterminism: the network oracle and the generated
tokens (`makeBookingRef`, `crypto.randomUUID`, `new Date().toISOString`). -/
structure World where
  oracle : Nat → FetchResult
  bookingRef : String
  idemKey : String
  nowIso : String

/-- The parsed body of `POST /create-checkout`. -/
structure CheckoutBody where
  guestName : JsVal
  guestEmail : JsVal
  guestPhone : JsVal
  total : JsVal
  checkin : JsVal
  checkout : JsVal
  guests : JsVal
  nights : JsVal
  discountApplied : JsVal
  discountAmount : JsVal
  preTaxTotal : JsVal
  taxAmount : JsVal
  rateMode : JsVal

/-- What the route handler answers (the fields the claims inspect; the
`sheets` pair is the embedded `{status, ok}` report). -/
structure HandlerResponse where
  status : Nat
  ok : Bool
  error : Option String
  bookingRef : Option String
  url : Option String
  sheets : Option (Nat × Bool)
  deriving DecidableEq

/-- A `res.status(code).json({ ok: false, error })` reply. -/
def jsonError (code : Nat) (msg : String) : HandlerResponse :=
  { status := code, ok := false, error := some msg, bookingRef := none,
    url := none, sheets := none }

/-- Model of `JSON.stringify` on the Square request body: a deterministic
rendering of its fields (`idempotency_key`, quick-pay name, amount,
currency, location id, pre-populated buyer email and phone). -/
def squareBodyString (cfg : Config) (w : World) (cents : Int)
    (email phone : String) : String :=
  String.intercalate "|" [w.idemKey,
    "Coastal Tide Escapes – Booking (" ++ w.bookingRef ++ ")",
    toString cents, "USD", cfg.squareLocationId, email, phone]

/-- Model of `JSON.stringify` on the lead payload of the first server
document (`action: "upsertLead"` and the guest, stay and money fields),
rendered field by field in source order. -/
def leadPayloadString (cfg : Config) (b : CheckoutBody) (w : World)
    (phoneE164 squareCheckoutUrl : String) : String :=
  String.intercalate "|" ["upsertLead", cfg.sheetsWebhookSecret, w.bookingRef,
    w.nowIso, "website-widget", (jsToString b.guestName).trim,
    (jsToString b.guestEmail).trim, phoneE164.trim, jsToString b.checkin,
    jsToString b.checkout, jsToString b.guests, jsToString b.nights,
    jsToString (.num (jsToNumber b.total)), toString (jsTruthy b.discountApplied),
    jsToString (.num (jsToNumber (jsOr b.discountAmount (.num (.fin 0))))),
    jsToString (.num (jsToNumber (jsOr b.preTaxTotal (.num (.fin 0))))),
    jsToString (.num (jsToNumber (jsOr b.taxAmount (.num (.fin 0))))),
    jsToString (jsOr b.rateMode (.str "")), squareCheckoutUrl]

/-- The Square fetch's options object: a plain POST with the bearer-auth
headers, no timeout or signal, and the default redirect mode. -/
def squareRequest (cfg : Config) (b : CheckoutBody) (w : World) (cents : Int)
    (phoneE164 : String) : Request :=
  { method := "POST",
    url := squareBaseUrl cfg ++ "/v2/online-checkout/payment-links",
    body := squareBodyString cfg w cents (jsToString b.guestEmail).trim
      phoneE164.trim,
    redirectMode := "follow", timeoutMs := none }

/-- The sheets section of `/create-checkout`: the awaited delivery, still
inside the handler's try block, then the success reply.  A thrown
delivery error falls into the catch, whose reply is the 500 with the
thrown message (abstracted to "fetch failed"). -/
def sheetsPhase (cfg : Config) (b : CheckoutBody) (w : World)
    (phoneE164 u : String) (s1 : NetState) : HandlerResponse × NetState :=
  let (dres, s2) := postJsonFollowRedirectPreserveMethod
    cfg.sheetsWebhookUrl (leadPayloadString cfg b w phoneE164 u) 12000 s1
  match dres with
  | .error _ => (jsonError 500 "fetch failed", s2)
  | .ok r =>
    ({ status := 200, ok := true, error := none,
       bookingRef := some w.bookingRef, url := some u,
       sheets := some (r.status, r.jsonOk) }, s2)

/-- The Square section of `/create-checkout`: the CreatePaymentLink call
and its error replies, then the sheets section. -/
def squarePhase (cfg : Config) (b : CheckoutBody) (w : World) (cents : Int) :
    HandlerResponse × NetState :=
  let phoneE164 := normalizePhoneE164 b.guestPhone
  let (r1, s1) := doFetch (squareRequest cfg b w cents phoneE164)
    { oracle := w.oracle, trace := [] }
  match r1 with
  | .err => (jsonError 500 "fetch failed", s1)
  | .ok sq =>
    if !sq.okFlag then
      (jsonError 502 "Square CreatePaymentLink failed", s1)
    else
      match sq.paymentLinkUrl with
      | none => (jsonError 502 "Square response missing payment_link.url", s1)
      | some u =>
        if u = "" then
          (jsonError 502 "Square response missing payment_link.url", s1)
        else sheetsPhase cfg b w phoneE164 u s1

/-- The `POST /create-checkout` handler of the first server document:
env guards, total, stay and guest validation, then the Square and sheets
sections.  The `!cents || cents < 1` guard is split on the result of
`toCents`: `null` and 0 are falsy, then the `< 1` test. -/
def createCheckout (cfg : Config) (b : CheckoutBody) (w : World) :
    HandlerResponse × NetState :=
  let s0 : NetState := { oracle := w.oracle, trace := [] }
  if cfg.squareAccessToken = "" ∨ cfg.squareLocationId = "" then
    (jsonError 500 "Square env vars missing on server", s0)
  else if cfg.sheetsWebhookUrl = "" ∨ cfg.sheetsWebhookSecret = "" then
    (jsonError 500 "Sheets webhook env vars missing on server", s0)
  else
    match toCents b.total with
    | none => (jsonError 400 "Invalid total", s0)
    | some cents =>
      if cents = 0 ∨ cents < 1 then (jsonError 400 "Invalid total", s0)
      else if jsFalsy b.checkin || jsFalsy b.checkout || jsFalsy b.guests ||
          jsFalsy b.nights then
        (jsonError 400 "Missing stay details", s0)
      else if jsFalsy b.guestName || jsFalsy b.guestEmail || jsFalsy b.guestPhone then
        (jsonError 400 "Missing guestName/guestEmail/guestPhone", s0)
      else squarePhase cfg b w cents

/-! ## The track-event route (the two later server documents, identical) -/

/-- The parsed body of `POST /track-event`. -/
structure TrackBody where
  eventType : JsVal
  sessionId : JsVal
  checkin : JsVal
  checkout : JsVal
  guests : JsVal
  nights : JsVal
  lodging : JsVal
  cleaning : JsVal
  total : JsVal
  discountApplied : JsVal
  discountAmount : JsVal
  preTaxTotal : JsVal
  taxAmount : JsVal
  rateMode : JsVal
  guestName : JsVal
  guestEmail : JsVal
  guestPhone : JsVal

/-- JS `typeof x === "string"`. -/
def isJsString : JsVal → Bool
  | .str _ => true
  | _ => false

/-- Source `x !== undefined ? Number(x) : ""`. -/
def numOrEmpty (v : JsVal) : JsVal :=
  match v with
  | .undef => .str ""
  | v => .num (jsToNumber v)

/-- Source `x !== undefined ? Number(x || 0) : ""`. -/
def numOrZeroOrEmpty (v : JsVal) : JsVal :=
  match v with
  | .undef => .str ""
  | v => .num (jsToNumber (jsOr v (.num (.fin 0))))

/-- Source `x !== undefined ? !!x : ""`. -/
def boolOrEmpty (v : JsVal) : JsVal :=
  match v with
  | .undef => .str ""
  | v => .bool (jsTruthy v)

/-- Source `x ? String(x).trim() : ""`. -/
def jsStrOrEmptyTrim (v : JsVal) : String :=
  if jsTruthy v then (jsToString v).trim else ""

/-- Model of `JSON.stringify` on the track-event payload
(`action: "appendLead"`, the event and session ids, then the stay and
money fields with the undefined-to-empty defaults of the source). -/
def trackPayloadString (cfg : Config) (b : TrackBody) (w : World) : String :=
  String.intercalate "|" ["appendLead", cfg.sheetsWebhookSecret, w.bookingRef,
    w.nowIso, "website-widget", jsToString b.eventType, jsToString b.sessionId,
    jsStrOrEmptyTrim b.guestName, jsStrOrEmptyTrim b.guestEmail,
    jsStrOrEmptyTrim b.guestPhone, jsToString b.checkin, jsToString b.checkout,
    jsToString b.guests, jsToString b.nights, jsToString (numOrEmpty b.lodging),
    jsToString (numOrEmpty b.cleaning), jsToString (numOrEmpty b.total),
    jsToString (boolOrEmpty b.discountApplied),
    jsToString (numOrZeroOrEmpty b.discountAmount),
    jsToString (numOrZeroOrEmpty b.preTaxTotal),
    jsToString (numOrZeroOrEmpty b.taxAmount),
    (if jsTruthy b.rateMode then jsToString b.rateMode else ""), ""]

/-- The `POST /track-event` handler: env guard, eventType, sessionId and
stay validation, then the awaited sheets delivery; a thrown delivery is
the catch block's 500, any resolved delivery (whatever its status) is a
200 `{ ok: true, bookingRef, sheetsResponse }` reply. -/
def trackEvent (cfg : Config) (b : TrackBody) (w : World) :
    HandlerResponse × NetState :=
  let s0 : NetState := { oracle := w.oracle, trace := [] }
  if cfg.sheetsWebhookUrl = "" ∨ cfg.sheetsWebhookSecret = "" then
    (jsonError 500 "Sheets webhook env vars missing on server", s0)
  else if jsFalsy b.eventType || !isJsString b.eventType then
    (jsonError 400 "Missing eventType", s0)
  else if jsFalsy b.sessionId || !isJsString b.sessionId then
    (jsonError 400 "Missing sessionId", s0)
  else if jsFalsy b.checkin || jsFalsy b.checkout || jsFalsy b.guests ||
      jsFalsy b.nights then
    (jsonError 400 "Missing stay details", s0)
  else
    let (dres, s1) := postJsonFollowRedirectPreserveMethod cfg.sheetsWebhookUrl
      (trackPayloadString cfg b w) 12000 s0
    match dres with
    | .error _ => (jsonError 500 "fetch failed", s1)
    | .ok r =>
      ({ status := 200, ok := true, error := none,
         bookingRef := some w.bookingRef, url := none,
         sheets := some (r.status, r.jsonOk) }, s1)

/-! ## Concrete fixtures for the scenario and witness theorems -/

def cfgEx : Config :=
  { squareAccessToken := "sq-token", squareLocationId := "LOC1",
    squareEnv := "production", squareVersion := "2025-10-16",
    sheetsWebhookUrl := "https://script.google.com/macros/s/abc/exec",
    sheetsWebhookSecret := "shared-secret" }

def squareRespEx : Response :=
  { status := 200, location := none,
    paymentLinkUrl := some "https://square.example/pay",
    jsonOk := true, raw := "payment-link-json" }

def respOk200 : Response :=
  { status := 200, location := none, paymentLinkUrl := none,
    jsonOk := true, raw := "ok-json" }

def resp500 : Response :=
  { status := 500, location := none, paymentLinkUrl := none,
    jsonOk := false, raw := "err-json" }

def checkoutBodyEx : CheckoutBody :=
  { guestName := .str "Ann Guest", guestEmail := .str "ann@example.com",
    guestPhone := .str "5551234567", total := .num (.fin 500),
    checkin := .str "2026-01-20", checkout := .str "2026-01-23",
    guests := .num (.fin 4), nights := .num (.fin 3),
    discountApplied := .bool false, discountAmount := .num (.fin 0),
    preTaxTotal := .num (.fin 467), taxAmount := .num (.fin 33),
    rateMode := .str "Standard Rate" }

def trackBodyEx : TrackBody :=
  { eventType := .str "QUOTE_VIEWED", sessionId := .str "sess-1",
    checkin := .str "2026-01-20", checkout := .str "2026-01-23",
    guests := .str "4", nights := .str "3", lodging := .undef,
    cleaning := .undef, total := .undef, discountApplied := .undef,
    discountAmount := .undef, preTaxTotal := .undef, taxAmount := .undef,
    rateMode := .undef, guestName := .undef, guestEmail := .undef,
    guestPhone := .undef }

def worldAllOk : World :=
  { oracle := fun n => if n = 0 then .ok squareRespEx else .ok respOk200,
    bookingRef := "CTE-1761955200000-a1b2c3",
    idemKey := "11111111-2222-3333-4444-555555555555",
    nowIso := "2026-01-01T00:00:00.000Z" }

def worldSheetsThrow : World :=
  { worldAllOk with oracle := fun n => if n = 0 then .ok squareRespEx else .err }

def trackWorld500 : World :=
  { worldAllOk with oracle := fun _ => .ok resp500 }

/-! ## Calendar bounds and window bridges -/

theorem civilFromDays_md_bounds (z : Nat) :
    1 ≤ monthOf z ∧ monthOf z ≤ 12 ∧ 1 ≤ dayOf z ∧ dayOf z ≤ 31 := by
  unfold monthOf dayOf civilFromDays
  simp only
  split <;> omega

theorem peak_bridge : ∀ m ∈ Finset.Icc 1 12, ∀ d ∈ Finset.Icc 1 31,
    (jsStrLe "04-01" (pad2 m ++ "-" ++ pad2 d) && jsStrLe (pad2 m ++ "-" ++ pad2 d) "08-31")
      = decide (peakMD m d) := by decide

theorem shoulder_bridge : ∀ m ∈ Finset.Icc 1 12, ∀ d ∈ Finset.Icc 1 31,
    ((jsStrLe "03-01" (pad2 m ++ "-" ++ pad2 d) && jsStrLe (pad2 m ++ "-" ++ pad2 d) "03-31") ||
     (jsStrLe "09-01" (pad2 m ++ "-" ++ pad2 d) && jsStrLe (pad2 m ++ "-" ++ pad2 d) "10-31"))
      = decide (shoulderMD m d) := by decide

theorem peak_shoulder_disjoint (m d : Nat) (h : shoulderMD m d) : ¬ peakMD m d := by
  unfold shoulderMD peakMD mdLe at *
  omega

theorem isWeekend_iff (z : Nat) : isWeekend z = true ↔ (jsGetDay z = 5 ∨ jsGetDay z = 6) := by
  simp [isWeekend]

theorem strPeak_iff (z : Nat) :
    (jsStrLe "04-01" (mdKey z) && jsStrLe (mdKey z) "08-31") = true ↔
      peakMD (monthOf z) (dayOf z) := by
  obtain ⟨hm1, hm2, hd1, hd2⟩ := civilFromDays_md_bounds z
  have hp := peak_bridge (monthOf z) (Finset.mem_Icc.mpr ⟨hm1, hm2⟩)
    (dayOf z) (Finset.mem_Icc.mpr ⟨hd1, hd2⟩)
  rw [show pad2 (monthOf z) ++ "-" ++ pad2 (dayOf z) = mdKey z from rfl] at hp
  rw [hp, decide_eq_true_eq]

theorem strShoulder_iff (z : Nat) :
    ((jsStrLe "03-01" (mdKey z) && jsStrLe (mdKey z) "03-31") ||
     (jsStrLe "09-01" (mdKey z) && jsStrLe (mdKey z) "10-31")) = true ↔
      shoulderMD (monthOf z) (dayOf z) := by
  obtain ⟨hm1, hm2, hd1, hd2⟩ := civilFromDays_md_bounds z
  have hs := shoulder_bridge (monthOf z) (Finset.mem_Icc.mpr ⟨hm1, hm2⟩)
    (dayOf z) (Finset.mem_Icc.mpr ⟨hd1, hd2⟩)
  rw [show pad2 (monthOf z) ++ "-" ++ pad2 (dayOf z) = mdKey z from rfl] at hs
  rw [hs, decide_eq_true_eq]

theorem weekend_branch (z : Nat) (a b : ℚ) :
    (if isWeekend z then a else b) = if jsGetDay z = 5 ∨ jsGetDay z = 6 then a else b := by
  by_cases hd : jsGetDay z = 5 ∨ jsGetDay z = 6
  · rw [if_pos ((isWeekend_iff z).mpr hd), if_pos hd]
  · rw [if_neg (fun h => hd ((isWeekend_iff z).mp h)), if_neg hd]

theorem inDiscountWindow_iff (ci co : Nat) :
    inDiscountWindow ci co = true ↔
      3 ≤ co - ci ∧ ∃ z, ci ≤ z ∧ z < co ∧ peakMD (monthOf z) (dayOf z) := by
  simp only [inDiscountWindow, nightsBetween]
  split
  · next hlt =>
    constructor
    · intro hc
      exact Bool.noConfusion hc
    · rintro ⟨h3, -⟩
      exact absurd h3 (by omega)
  · next hge =>
    rw [List.any_eq_true]
    constructor
    · rintro ⟨i, hi, hstr⟩
      rw [List.mem_range] at hi
      exact ⟨by omega, ci + i, Nat.le_add_right _ _, by omega, (strPeak_iff (ci + i)).mp hstr⟩
    · rintro ⟨h3, z, hz1, hz2, hpk⟩
      refine ⟨z - ci, List.mem_range.mpr (by omega), ?_⟩
      rw [show ci + (z - ci) = z by omega]
      exact (strPeak_iff z).mpr hpk

/-- C1: every quote the widget submit handler builds from a valid stay
satisfies grandTotal = preTaxTotal + taxAmount and
preTaxTotal = lodgingTotal + cleaningFee - discountAmount, with
discountAmount = 0 whenever the discount is not applied.  The validity
conditions (checkout strictly after checkin, at least one night, guest
count in 1..9) are exactly the cases in which `submitQuote` returns a
quote. -/
theorem quote_money_invariants (ci co : Nat) (guests : Int) (q : Quote)
    (h : submitQuote ci co guests = some q) :
    q.grandTotal = q.preTaxTotal + q.taxAmount ∧
    q.preTaxTotal = q.lodging + q.cleaning - q.discountAmount ∧
    (q.discountApplied = false → q.discountAmount = 0) := by
  simp only [submitQuote] at h
  split_ifs at h with h1 h2 h3 h4 <;> simp only [reduceCtorEq, Option.some.injEq] at h
  · subst h
    refine ⟨rfl, rfl, fun hfalse => ?_⟩
    exact Bool.noConfusion hfalse
  · subst h
    refine ⟨rfl, ?_, fun _ => rfl⟩
    show (_ : ℚ) + 150 = _ + 150 - 0
    ring

/-- Witness for C1 at the stay 2026-01-20 to 2026-01-23 with 2 guests. -/
theorem quote_money_invariants_witness :
    ∃ q : Quote,
      submitQuote (daysFromCivil 2026 1 20) (daysFromCivil 2026 1 23) 2 = some q ∧
      q.grandTotal = q.preTaxTotal + q.taxAmount ∧
      q.preTaxTotal = q.lodging + q.cleaning - q.discountAmount := by
  rcases hq : submitQuote (daysFromCivil 2026 1 20) (daysFromCivil 2026 1 23) 2 with _ | q
  · exact absurd hq (by decide)
  · exact ⟨q, rfl, (quote_money_invariants _ _ _ q hq).1,
      (quote_money_invariants _ _ _ q hq).2.1⟩

/-- C2: the per-night price function is total over all calendar dates
(every day number) and follows the rule table: within Apr 1 to Aug 31 it
returns 325 on a Friday or Saturday and 300 otherwise; within Mar 1 to
Mar 31 or Sep 1 to Oct 31, 275 on Friday or Saturday and 250 otherwise;
on every other date (the unconditional fallback), 250 on Friday or
Saturday and 225 otherwise. -/
theorem priceForNight_rule_table (z : Nat) :
    (peakMD (monthOf z) (dayOf z) →
      nightlyRate z = if jsGetDay z = 5 ∨ jsGetDay z = 6 then 325 else 300) ∧
    (shoulderMD (monthOf z) (dayOf z) →
      nightlyRate z = if jsGetDay z = 5 ∨ jsGetDay z = 6 then 275 else 250) ∧
    (¬ peakMD (monthOf z) (dayOf z) → ¬ shoulderMD (monthOf z) (dayOf z) →
      nightlyRate z = if jsGetDay z = 5 ∨ jsGetDay z = 6 then 250 else 225) := by
  refine ⟨fun hpk => ?_, fun hsh => ?_, fun hp hs => ?_⟩
  · have h1 := (strPeak_iff z).mpr hpk
    simp only [nightlyRate]
    rw [if_pos h1, weekend_branch]
  · have h1 : ¬ ((jsStrLe "04-01" (mdKey z) && jsStrLe (mdKey z) "08-31") = true) :=
      fun hc => peak_shoulder_disjoint _ _ hsh ((strPeak_iff z).mp hc)
    have h2 := (strShoulder_iff z).mpr hsh
    simp only [nightlyRate]
    rw [if_neg h1, if_pos h2, weekend_branch]
  · have h1 : ¬ ((jsStrLe "04-01" (mdKey z) && jsStrLe (mdKey z) "08-31") = true) :=
      fun hc => hp ((strPeak_iff z).mp hc)
    have h2 : ¬ (((jsStrLe "03-01" (mdKey z) && jsStrLe (mdKey z) "03-31") ||
        (jsStrLe "09-01" (mdKey z) && jsStrLe (mdKey z) "10-31")) = true) :=
      fun hc => hs ((strShoulder_iff z).mp hc)
    simp only [nightlyRate]
    rw [if_neg h1, if_neg h2, weekend_branch]

/-- C3: the promotional discount is applied iff the stay has at least 3
nights and at least one night from checkin (inclusive) to checkout
(exclusive) falls with its month-day inside Apr 1 to Aug 31; when
applied, the discount is 10 percent of (lodgingTotal + cleaningFee) and
the 7 percent tax is computed on the discounted subtotal. -/
theorem discount_eligibility (ci co : Nat) (guests : Int) (q : Quote)
    (h : submitQuote ci co guests = some q) :
    (q.discountApplied = true ↔
      3 ≤ q.nights ∧ ∃ z, ci ≤ z ∧ z < co ∧ peakMD (monthOf z) (dayOf z)) ∧
    (q.discountApplied = true →
      q.discountAmount = (q.lodging + q.cleaning) * 0.10 ∧
      q.taxAmount = (q.lodging + q.cleaning - q.discountAmount) * 0.07) := by
  simp only [submitQuote] at h
  split_ifs at h with h1 h2 h3 h4 <;> simp only [reduceCtorEq, Option.some.injEq] at h
  · subst h
    have hw := (inDiscountWindow_iff ci co).mp h4
    exact ⟨⟨fun _ => hw, fun _ => rfl⟩, fun _ => ⟨rfl, rfl⟩⟩
  · subst h
    have hw : ¬ (3 ≤ co - ci ∧ ∃ z, ci ≤ z ∧ z < co ∧ peakMD (monthOf z) (dayOf z)) :=
      fun hc => h4 ((inDiscountWindow_iff ci co).mpr hc)
    exact ⟨⟨fun hfalse => Bool.noConfusion hfalse, fun hc => absurd hc hw⟩,
      fun hc => Bool.noConfusion hc⟩

/-- Witness for C3 at the stay 2026-07-03 to 2026-07-06 with 2 guests. -/
theorem discount_eligibility_witness :
    ∃ q : Quote,
      submitQuote (daysFromCivil 2026 7 3) (daysFromCivil 2026 7 6) 2 = some q ∧
      (q.discountApplied = true ↔
        3 ≤ q.nights ∧ ∃ z, daysFromCivil 2026 7 3 ≤ z ∧ z < daysFromCivil 2026 7 6 ∧
          peakMD (monthOf z) (dayOf z)) := by
  rcases hq : submitQuote (daysFromCivil 2026 7 3) (daysFromCivil 2026 7 6) 2 with _ | q
  · exact absurd hq (by decide)
  · exact ⟨q, rfl, (discount_eligibility _ _ _ q hq).1⟩

/-- C4: the stay checkin 2026-07-03 (a Friday), checkout 2026-07-06
prices its three nights 325, 325, 300 for lodgingTotal 950, cleaning fee
150, an applied discount of 110, preTaxTotal 990, taxAmount 69.30 and
grandTotal 1059.30. -/
theorem quote_scenario_july_2026 :
    jsGetDay (daysFromCivil 2026 7 3) = 5 ∧
    nightlyRate (daysFromCivil 2026 7 3) = 325 ∧
    nightlyRate (daysFromCivil 2026 7 4) = 325 ∧
    nightlyRate (daysFromCivil 2026 7 5) = 300 ∧
    submitQuote (daysFromCivil 2026 7 3) (daysFromCivil 2026 7 6) 2 =
      some { nights := 3, guests := 2, lodging := 950, cleaning := 150,
             preTaxTotal := 990, discountApplied := true, discountAmount := 110,
             taxAmount := 69.30, grandTotal := 1059.30,
             rateModeLabel := "Direct Booking Discount Applied" } := by
  refine ⟨by decide, by decide, by decide, by decide, ?_⟩
  rw [show daysFromCivil 2026 7 3 = 740105 from by decide,
    show daysFromCivil 2026 7 6 = 740108 from by decide]
  have hr1 : nightlyRate (740105 + 0) = 325 := by decide
  have hr2 : nightlyRate (740105 + 1) = 325 := by decide
  have hr3 : nightlyRate (740105 + 2) = 300 := by decide
  have hL : (List.range (nightsBetween 740105 740108)).foldl
      (fun acc i => acc + nightlyRate (740105 + i)) 0 = (950 : ℚ) := by
    rw [show List.range (nightsBetween 740105 740108) = [0, 1, 2] from by decide]
    simp only [List.foldl]
    rw [hr1, hr2, hr3]
    norm_num
  unfold submitQuote
  rw [if_neg (by decide), if_neg (by decide), if_neg (by decide),
    if_pos (show inDiscountWindow 740105 740108 = true from by decide)]
  rw [hL]
  simp only [Option.some.injEq, Quote.mk.injEq]
  norm_num [nightsBetween]

theorem postJson_run_err (url body : String) (tm : Nat) (s : NetState)
    (ho : s.oracle s.trace.length = .err) :
    postJsonFollowRedirectPreserveMethod url body tm s =
      (.error (), { s with trace := s.trace ++ [initialWebhookRequest url body tm] }) := by
  simp only [postJsonFollowRedirectPreserveMethod, doFetch, ho]

theorem postJson_run_noredirect (url body : String) (tm : Nat) (s : NetState)
    (resp : Response) (ho : s.oracle s.trace.length = .ok resp)
    (hrs : isRedirectStatus resp.status = false) :
    postJsonFollowRedirectPreserveMethod url body tm s =
      (.ok (plainDelivery resp),
       { s with trace := s.trace ++ [initialWebhookRequest url body tm] }) := by
  simp only [postJsonFollowRedirectPreserveMethod, doFetch, ho, hrs,
    Bool.false_eq_true, if_false]

theorem postJson_run_noloc (url body : String) (tm : Nat) (s : NetState)
    (resp : Response) (ho : s.oracle s.trace.length = .ok resp)
    (hrs : isRedirectStatus resp.status = true) (hloc : resp.location = none) :
    postJsonFollowRedirectPreserveMethod url body tm s =
      (.ok (plainDelivery resp),
       { s with trace := s.trace ++ [initialWebhookRequest url body tm] }) := by
  simp only [postJsonFollowRedirectPreserveMethod, doFetch, ho, hrs, if_true, hloc]

theorem postJson_run_emptyloc (url body : String) (tm : Nat) (s : NetState)
    (resp : Response) (ho : s.oracle s.trace.length = .ok resp)
    (hrs : isRedirectStatus resp.status = true) (hloc : resp.location = some "") :
    postJsonFollowRedirectPreserveMethod url body tm s =
      (.ok (plainDelivery resp),
       { s with trace := s.trace ++ [initialWebhookRequest url body tm] }) := by
  simp only [postJsonFollowRedirectPreserveMethod, doFetch, ho, hrs, if_true, hloc,
    ne_eq, not_true_eq_false, if_false]

theorem postJson_run_follow_err (url body : String) (tm : Nat) (s : NetState)
    (resp : Response) (l : String) (ho : s.oracle s.trace.length = .ok resp)
    (hrs : isRedirectStatus resp.status = true) (hloc : resp.location = some l)
    (hl : l ≠ "") (ho1 : s.oracle (s.trace.length + 1) = .err) :
    postJsonFollowRedirectPreserveMethod url body tm s =
      (.error (),
       { s with trace := s.trace ++ [initialWebhookRequest url body tm,
                                     redirectHopRequest l body] }) := by
  simp only [postJsonFollowRedirectPreserveMethod, doFetch, ho, hrs, if_true, hloc,
    ne_eq, hl, not_false_eq_true, if_true, List.length_append,
    List.length_singleton, ho1, List.append_assoc, List.singleton_append]

theorem postJson_run_follow_ok (url body : String) (tm : Nat) (s : NetState)
    (resp resp2 : Response) (l : String) (ho : s.oracle s.trace.length = .ok resp)
    (hrs : isRedirectStatus resp.status = true) (hloc : resp.location = some l)
    (hl : l ≠ "") (ho1 : s.oracle (s.trace.length + 1) = .ok resp2) :
    postJsonFollowRedirectPreserveMethod url body tm s =
      (.ok { status := resp2.status, redirectedFrom := some url,
             redirectedTo := some l, jsonOk := resp2.jsonOk, raw := resp2.raw },
       { s with trace := s.trace ++ [initialWebhookRequest url body tm,
                                     redirectHopRequest l body] }) := by
  simp only [postJsonFollowRedirectPreserveMethod, doFetch, ho, hrs, if_true, hloc,
    ne_eq, hl, not_false_eq_true, if_true, List.length_append,
    List.length_singleton, ho1, List.append_assoc, List.singleton_append]

theorem postJson_trace (url body : String) (tm : Nat) (s : NetState) :
    (postJsonFollowRedirectPreserveMethod url body tm s).2.trace =
      s.trace ++ [initialWebhookRequest url body tm] ∨
    ∃ l, (postJsonFollowRedirectPreserveMethod url body tm s).2.trace =
      s.trace ++ [initialWebhookRequest url body tm, redirectHopRequest l body] := by
  rcases ho : s.oracle s.trace.length with resp | _
  · by_cases hrs : isRedirectStatus resp.status = true
    · rcases hloc : resp.location with _ | l
      · left
        rw [postJson_run_noloc url body tm s resp ho hrs hloc]
      · rcases eq_or_ne l "" with hl | hl
        · subst hl
          left
          rw [postJson_run_emptyloc url body tm s resp ho hrs hloc]
        · rcases ho1 : s.oracle (s.trace.length + 1) with resp2 | _
          · right
            exact ⟨l, by
              rw [postJson_run_follow_ok url body tm s resp resp2 l ho hrs hloc hl ho1]⟩
          · right
            exact ⟨l, by
              rw [postJson_run_follow_err url body tm s resp l ho hrs hloc hl ho1]⟩
    · have hrsf : isRedirectStatus resp.status = false := by simpa using hrs
      left
      rw [postJson_run_noredirect url body tm s resp ho hrsf]
  · left
    rw [postJson_run_err url body tm s ho]

/-- C5: every webhook delivery starts with one POST carrying the
serialized body, issued with redirect-following disabled under the abort
timer; exactly one further POST with the byte-identical body is issued
to the Location, and its response returned, iff the first response has
status 301, 302, 303, 307 or 308 and carries a (non-empty) Location
header; at most two requests are ever issued and every issued request
is a POST, never a GET. -/
theorem postJson_redirect_protocol (url body : String) (tm : Nat) (o : Nat → FetchResult) :
    let out := postJsonFollowRedirectPreserveMethod url body tm { oracle := o, trace := [] }
    out.2.trace.head? = some (initialWebhookRequest url body tm) ∧
    (∀ r ∈ out.2.trace, r.method = "POST" ∧ r.body = body) ∧
    out.2.trace.length ≤ 2 ∧
    (out.2.trace.length = 2 ↔
      ∃ resp l, o 0 = .ok resp ∧ isRedirectStatus resp.status = true ∧
        resp.location = some l ∧ l ≠ "") ∧
    (∀ resp l, o 0 = .ok resp → isRedirectStatus resp.status = true →
      resp.location = some l → l ≠ "" →
      out.2.trace.get? 1 = some (redirectHopRequest l body) ∧
      ∀ resp2, o 1 = .ok resp2 →
        out.1 = .ok { status := resp2.status, redirectedFrom := some url,
                      redirectedTo := some l, jsonOk := resp2.jsonOk,
                      raw := resp2.raw }) := by
  dsimp only
  rcases ho : o 0 with resp | _
  · by_cases hrs : isRedirectStatus resp.status = true
    · rcases hloc : resp.location with _ | l
      · rw [postJson_run_noloc url body tm _ resp ho hrs hloc]
        refine ⟨rfl, ?_, by simp, ?_, ?_⟩
        · intro r hr
          simp only [List.nil_append, List.mem_singleton] at hr
          subst hr
          exact ⟨rfl, rfl⟩
        · simp only [List.nil_append, List.length_singleton]
          refine ⟨by omega, ?_⟩
          rintro ⟨resp2, l, hresp2, -, hl, -⟩
          cases hresp2
          rw [hloc] at hl
          cases hl
        · intro resp2 l hresp2 _ hl _
          cases hresp2
          rw [hloc] at hl
          cases hl
      · rcases eq_or_ne l "" with hl | hl
        · subst hl
          rw [postJson_run_emptyloc url body tm _ resp ho hrs hloc]
          refine ⟨rfl, ?_, by simp, ?_, ?_⟩
          · intro r hr
            simp only [List.nil_append, List.mem_singleton] at hr
            subst hr
            exact ⟨rfl, rfl⟩
          · simp only [List.nil_append, List.length_singleton]
            refine ⟨by omega, ?_⟩
            rintro ⟨resp2, l2, hresp2, -, hl2, hne⟩
            cases hresp2
            rw [hloc] at hl2
            cases hl2
            exact absurd rfl hne
          · intro resp2 l2 hresp2 _ hl2 hne
            cases hresp2
            rw [hloc] at hl2
            cases hl2
            exact absurd rfl hne
        · rcases ho1 : o 1 with resp2 | _
          · rw [postJson_run_follow_ok url body tm _ resp resp2 l ho hrs hloc hl ho1]
            refine ⟨rfl, ?_, by simp, ?_, ?_⟩
            · intro r hr
              simp only [List.nil_append, List.mem_cons, List.not_mem_nil, or_false] at hr
              rcases hr with hr | hr <;> subst hr <;> exact ⟨rfl, rfl⟩
            · simp only [List.nil_append, List.length_cons, List.length_singleton]
              exact ⟨fun _ => ⟨resp, l, rfl, hrs, hloc, hl⟩, fun _ => rfl⟩
            · intro respa la hra _ hla _
              cases hra
              rw [hloc] at hla
              cases hla
              refine ⟨rfl, ?_⟩
              intro respb hb
              cases hb
              rfl
          · rw [postJson_run_follow_err url body tm _ resp l ho hrs hloc hl ho1]
            refine ⟨rfl, ?_, by simp, ?_, ?_⟩
            · intro r hr
              simp only [List.nil_append, List.mem_cons, List.not_mem_nil, or_false] at hr
              rcases hr with hr | hr <;> subst hr <;> exact ⟨rfl, rfl⟩
            · simp only [List.nil_append, List.length_cons, List.length_singleton]
              exact ⟨fun _ => ⟨resp, l, rfl, hrs, hloc, hl⟩, fun _ => rfl⟩
            · intro respa la hra _ hla _
              cases hra
              rw [hloc] at hla
              cases hla
              refine ⟨rfl, ?_⟩
              intro respb hb
              cases hb
    · have hrsf : isRedirectStatus resp.status = false := by simpa using hrs
      rw [postJson_run_noredirect url body tm _ resp ho hrsf]
      refine ⟨rfl, ?_, by simp, ?_, ?_⟩
      · intro r hr
        simp only [List.nil_append, List.mem_singleton] at hr
        subst hr
        exact ⟨rfl, rfl⟩
      · simp only [List.nil_append, List.length_singleton]
        refine ⟨by omega, ?_⟩
        rintro ⟨resp2, l, hresp2, hrs2, -, -⟩
        cases hresp2
        exact absurd hrs2 hrs
      · intro resp2 l hresp2 hrs2 _ _
        cases hresp2
        exact absurd hrs2 hrs
  · rw [postJson_run_err url body tm _ ho]
    refine ⟨rfl, ?_, by simp, ?_, ?_⟩
    · intro r hr
      simp only [List.nil_append, List.mem_singleton] at hr
      subst hr
      exact ⟨rfl, rfl⟩
    · simp only [List.nil_append, List.length_singleton]
      refine ⟨by omega, ?_⟩
      rintro ⟨resp2, l, hresp2, -, -, -⟩
      cases hresp2
    · intro resp2 l hresp2 _ _ _
      cases hresp2

theorem sheetsPhase_cases (cfg : Config) (b : CheckoutBody) (w : World)
    (p u : String) (s1 : NetState) :
    (sheetsPhase cfg b w p u s1).1 = jsonError 500 "fetch failed" ∨
    ∃ r : DeliveryResult, (sheetsPhase cfg b w p u s1).1 =
      { status := 200, ok := true, error := none,
        bookingRef := some w.bookingRef, url := some u,
        sheets := some (r.status, r.jsonOk) } := by
  rcases hp : postJsonFollowRedirectPreserveMethod cfg.sheetsWebhookUrl
      (leadPayloadString cfg b w p u) 12000 s1 with ⟨dres, s2⟩
  rcases dres with e | r
  · left
    simp only [sheetsPhase, hp]
  · right
    exact ⟨r, by simp only [sheetsPhase, hp]⟩

theorem sheetsPhase_status_ne_400 (cfg : Config) (b : CheckoutBody) (w : World)
    (p u : String) (s1 : NetState) : (sheetsPhase cfg b w p u s1).1.status ≠ 400 := by
  rcases sheetsPhase_cases cfg b w p u s1 with hs | ⟨r, hs⟩ <;> rw [hs] <;>
    simp [jsonError]

theorem sheetsPhase_state (cfg : Config) (b : CheckoutBody) (w : World)
    (p u : String) (s1 : NetState) :
    (sheetsPhase cfg b w p u s1).2 =
      (postJsonFollowRedirectPreserveMethod cfg.sheetsWebhookUrl
        (leadPayloadString cfg b w p u) 12000 s1).2 := by
  rcases hp : postJsonFollowRedirectPreserveMethod cfg.sheetsWebhookUrl
      (leadPayloadString cfg b w p u) 12000 s1 with ⟨dres, s2⟩
  rcases dres with e | r <;> simp only [sheetsPhase, hp]

theorem squarePhase_status_ne_400 (cfg : Config) (b : CheckoutBody) (w : World)
    (cents : Int) : (squarePhase cfg b w cents).1.status ≠ 400 := by
  simp only [squarePhase, doFetch, List.nil_append]
  split
  · simp [jsonError]
  · split
    · simp [jsonError]
    · split
      · simp [jsonError]
      · split
        · simp [jsonError]
        · exact sheetsPhase_status_ne_400 _ _ _ _ _ _

theorem createCheckout_run (cfg : Config) (b : CheckoutBody) (w : World) (cents : Int)
    (henv1 : ¬ (cfg.squareAccessToken = "" ∨ cfg.squareLocationId = ""))
    (henv2 : ¬ (cfg.sheetsWebhookUrl = "" ∨ cfg.sheetsWebhookSecret = ""))
    (htc : toCents b.total = some cents) (hc : ¬ (cents = 0 ∨ cents < 1))
    (hstay : (jsFalsy b.checkin || jsFalsy b.checkout || jsFalsy b.guests ||
      jsFalsy b.nights) = false)
    (hguest : (jsFalsy b.guestName || jsFalsy b.guestEmail ||
      jsFalsy b.guestPhone) = false) :
    createCheckout cfg b w = squarePhase cfg b w cents := by
  simp only [createCheckout, if_neg henv1, if_neg henv2, htc, if_neg hc, hstay,
    Bool.false_eq_true, if_false, hguest]

theorem toCents_500 : toCents (JsVal.num (.fin 500)) = some 50000 := by
  show some (jsMathRound ((500 : ℚ) * 100)) = some 50000
  simp only [jsMathRound, Option.some.injEq]
  norm_num

/-- C6 (the failing run): with the Square call already resolved
successfully with a checkout URL, a webhook delivery that throws (the
abort timer firing, a network failure) falls into the handler catch
block, so `/create-checkout` replies 500 without the URL instead of the
200 ok reply the contract requires.  The fixture oracle answers the
Square call with a 200 carrying `payment_link.url` and rejects the
sheets fetch. -/
theorem createCheckout_thrown_delivery_blocks :
    (createCheckout cfgEx checkoutBodyEx worldSheetsThrow).1 =
      jsonError 500 "fetch failed" ∧
    worldSheetsThrow.oracle 0 = .ok squareRespEx ∧
    squareRespEx.okFlag = true ∧
    squareRespEx.paymentLinkUrl = some "https://square.example/pay" ∧
    worldSheetsThrow.oracle 1 = .err := by
  have htc : toCents checkoutBodyEx.total = some 50000 := toCents_500
  have hrun := createCheckout_run cfgEx checkoutBodyEx worldSheetsThrow 50000
    (by decide) (by decide) htc (by decide) (by decide) (by decide)
  refine ⟨?_, rfl, rfl, rfl, rfl⟩
  rw [hrun]
  decide

/-- C7 counterexample: a `/track-event` call with valid fields whose
webhook delivery resolves with a non-success status (500 from the
upstream on every fetch) is answered 200 with ok true, the failure only
embedded in the sheetsResponse field, not surfaced as an error. -/
theorem trackEvent_nonsuccess_reports_ok :
    (trackEvent cfgEx trackBodyEx trackWorld500).1 =
      { status := 200, ok := true, error := none,
        bookingRef := some "CTE-1761955200000-a1b2c3", url := none,
        sheets := some (500, false) } ∧
    trackWorld500.oracle 0 = .ok resp500 ∧ resp500.okFlag = false := by
  exact ⟨by decide, rfl, rfl⟩

/-- C7 (amended): on a valid `/track-event` call, a webhook delivery
that throws (unreachable or timed out) is surfaced as a 500 error; a
delivery that resolves, whatever its status, is reported as a 200
success with the delivery status embedded in the reply. -/
theorem trackEvent_error_surfacing (cfg : Config) (b : TrackBody) (w : World)
    (hu : cfg.sheetsWebhookUrl ≠ "") (hs : cfg.sheetsWebhookSecret ≠ "")
    (het : jsTruthy b.eventType = true) (hets : isJsString b.eventType = true)
    (hsi : jsTruthy b.sessionId = true) (hsis : isJsString b.sessionId = true)
    (hci : jsTruthy b.checkin = true) (hco : jsTruthy b.checkout = true)
    (hg : jsTruthy b.guests = true) (hn : jsTruthy b.nights = true) :
    ((postJsonFollowRedirectPreserveMethod cfg.sheetsWebhookUrl
        (trackPayloadString cfg b w) 12000 { oracle := w.oracle, trace := [] }).1 =
          .error () →
      (trackEvent cfg b w).1 = jsonError 500 "fetch failed") ∧
    (∀ r : DeliveryResult,
      (postJsonFollowRedirectPreserveMethod cfg.sheetsWebhookUrl
        (trackPayloadString cfg b w) 12000 { oracle := w.oracle, trace := [] }).1 =
          .ok r →
      (trackEvent cfg b w).1 =
        { status := 200, ok := true, error := none,
          bookingRef := some w.bookingRef, url := none,
          sheets := some (r.status, r.jsonOk) }) := by
  have hv1 : ¬ (cfg.sheetsWebhookUrl = "" ∨ cfg.sheetsWebhookSecret = "") := by
    simp [hu, hs]
  have hv2 : (jsFalsy b.eventType || !isJsString b.eventType) = false := by
    simp [jsFalsy, het, hets]
  have hv3 : (jsFalsy b.sessionId || !isJsString b.sessionId) = false := by
    simp [jsFalsy, hsi, hsis]
  have hv4 : (jsFalsy b.checkin || jsFalsy b.checkout || jsFalsy b.guests ||
      jsFalsy b.nights) = false := by
    simp [jsFalsy, hci, hco, hg, hn]
  rcases hp : postJsonFollowRedirectPreserveMethod cfg.sheetsWebhookUrl
      (trackPayloadString cfg b w) 12000 { oracle := w.oracle, trace := [] } with ⟨dres, s1⟩
  rcases dres with e | r
  · have hrun : (trackEvent cfg b w).1 = jsonError 500 "fetch failed" := by
      simp only [trackEvent, if_neg hv1, hv2, hv3, hv4, Bool.false_eq_true, if_false, hp]
    refine ⟨fun _ => hrun, fun r hr => ?_⟩
    simp at hr
  · have hrun : (trackEvent cfg b w).1 =
        { status := 200, ok := true, error := none,
          bookingRef := some w.bookingRef, url := none,
          sheets := some (r.status, r.jsonOk) } := by
      simp only [trackEvent, if_neg hv1, hv2, hv3, hv4, Bool.false_eq_true, if_false, hp]
    refine ⟨fun he => ?_, fun r2 hr2 => ?_⟩
    · simp at he
    · simp only [Except.ok.injEq] at hr2
      subst hr2
      exact hrun

/-- Witness for C7 (amended) at the fixture with a 500 upstream. -/
theorem trackEvent_error_surfacing_witness :
    (trackEvent cfgEx trackBodyEx trackWorld500).1 =
      { status := 200, ok := true, error := none,
        bookingRef := some "CTE-1761955200000-a1b2c3", url := none,
        sheets := some (500, false) } := by
  have h := trackEvent_error_surfacing cfgEx trackBodyEx trackWorld500
    (by decide) (by decide) (by decide) (by decide) (by decide) (by decide)
    (by decide) (by decide) (by decide) (by decide)
  exact h.2 (plainDelivery resp500) rfl

/-- C8 counterexample: in a completed `/create-checkout` run the issued
requests carry the timeout profile [none, some 12000]: the Payment
Provider call (the first request) is sent without any timeout or abort
signal attached. -/
theorem square_call_has_no_timeout :
    ((createCheckout cfgEx checkoutBodyEx worldAllOk).2.trace.map Request.timeoutMs) =
      [none, some 12000] := by
  have htc : toCents checkoutBodyEx.total = some 50000 := toCents_500
  have hrun := createCheckout_run cfgEx checkoutBodyEx worldAllOk 50000
    (by decide) (by decide) htc (by decide) (by decide) (by decide)
  rw [hrun]
  decide

/-- C8 (amended): in every webhook delivery the initial POST carries the
caller timeout and the re-issued POST after a redirect carries none; in
every `/create-checkout` run the request timeouts are a prefix of
[none, some 12000, none]: the Square call has no timeout, the initial
webhook POST a 12 second one, the redirect hop none. -/
theorem outbound_timeout_profile :
    (∀ (url body : String) (tm : Nat) (o : Nat → FetchResult),
      ((postJsonFollowRedirectPreserveMethod url body tm
          { oracle := o, trace := [] }).2.trace.map Request.timeoutMs) = [some tm] ∨
      ((postJsonFollowRedirectPreserveMethod url body tm
          { oracle := o, trace := [] }).2.trace.map Request.timeoutMs) = [some tm, none]) ∧
    (∀ (cfg : Config) (b : CheckoutBody) (w : World),
      ((createCheckout cfg b w).2.trace.map Request.timeoutMs) = [] ∨
      ((createCheckout cfg b w).2.trace.map Request.timeoutMs) = [none] ∨
      ((createCheckout cfg b w).2.trace.map Request.timeoutMs) = [none, some 12000] ∨
      ((createCheckout cfg b w).2.trace.map Request.timeoutMs) = [none, some 12000, none]) := by
  have hpj : ∀ (url body : String) (tm : Nat) (s : NetState),
      ((postJsonFollowRedirectPreserveMethod url body tm s).2.trace.map Request.timeoutMs) =
        s.trace.map Request.timeoutMs ++ [some tm] ∨
      ((postJsonFollowRedirectPreserveMethod url body tm s).2.trace.map Request.timeoutMs) =
        s.trace.map Request.timeoutMs ++ [some tm, none] := by
    intro url body tm s
    rcases postJson_trace url body tm s with h | ⟨l, h⟩ <;> rw [h] <;>
      simp [initialWebhookRequest, redirectHopRequest]
  constructor
  · intro url body tm o
    rcases hpj url body tm { oracle := o, trace := [] } with h | h <;> rw [h] <;> simp
  · intro cfg b w
    simp only [createCheckout]
    split
    · simp
    · split
      · simp
      · split
        · simp
        · next cents htc =>
          split
          · simp
          · split
            · simp
            · split
              · simp
              · simp only [squarePhase, doFetch, List.nil_append]
                split
                · simp [squareRequest]
                · split
                  · simp [squareRequest]
                  · split
                    · simp [squareRequest]
                    · next u heq =>
                      split
                      · simp [squareRequest]
                      · have hst := congrArg NetState.trace
                          (sheetsPhase_state cfg b w (normalizePhoneE164 b.guestPhone) u
                            { oracle := w.oracle,
                              trace := [squareRequest cfg b w cents
                                (normalizePhoneE164 b.guestPhone)] })
                        rw [hst]
                        rcases hpj cfg.sheetsWebhookUrl
                            (leadPayloadString cfg b w (normalizePhoneE164 b.guestPhone) u) 12000
                            { oracle := w.oracle,
                              trace := [squareRequest cfg b w cents
                                (normalizePhoneE164 b.guestPhone)] }
                          with h | h <;> rw [h] <;> simp [squareRequest]

/-- C9: with the server configured, `/create-checkout` replies 400
"Invalid total" exactly when the caller-supplied total is non-finite or
converts (by rounding to the nearest cent) to fewer than 1 cent, and in
that case no request at all is issued, in particular no Payment
Provider call. -/
theorem invalid_total_rejected (cfg : Config) (b : CheckoutBody) (w : World)
    (ha : cfg.squareAccessToken ≠ "") (hb : cfg.squareLocationId ≠ "")
    (hc : cfg.sheetsWebhookUrl ≠ "") (hd : cfg.sheetsWebhookSecret ≠ "") :
    (((createCheckout cfg b w).1.status = 400 ∧
      (createCheckout cfg b w).1.error = some "Invalid total") ↔
        invalidTotalSpec b.total) ∧
    (invalidTotalSpec b.total → (createCheckout cfg b w).2.trace = []) := by
  have henv1 : ¬ (cfg.squareAccessToken = "" ∨ cfg.squareLocationId = "") := by
    simp [ha, hb]
  have henv2 : ¬ (cfg.sheetsWebhookUrl = "" ∨ cfg.sheetsWebhookSecret = "") := by
    simp [hc, hd]
  simp only [createCheckout, if_neg henv1, if_neg henv2]
  rcases htc : toCents b.total with _ | c
  · simp only [htc]
    refine ⟨?_, fun _ => by trivial⟩
    have hiv : invalidTotalSpec b.total := Or.inl htc
    simp [jsonError, hiv]
  · simp only [htc]
    by_cases hcc : c = 0 ∨ c < 1
    · rw [if_pos hcc]
      have hiv : invalidTotalSpec b.total := Or.inr ⟨c, htc, by omega⟩
      refine ⟨?_, fun _ => by trivial⟩
      simp [jsonError, hiv]
    · rw [if_neg hcc]
      have hnot : ¬ invalidTotalSpec b.total := by
        simp only [invalidTotalSpec, htc]
        push_neg
        refine ⟨by simp, ?_⟩
        rintro c' hc'
        cases hc'
        omega
      refine ⟨⟨fun hl => absurd hl ?_, fun hr => absurd hr hnot⟩,
        fun hr => absurd hr hnot⟩
      split
      · intro h
        simp [jsonError] at h
      · split
        · intro h
          simp [jsonError] at h
        · intro h
          exact absurd h.1 (squarePhase_status_ne_400 _ _ _ _)

/-- Witness for C9: a NaN total is rejected with a 400 and no request. -/
theorem invalid_total_rejected_witness :
    (createCheckout cfgEx { checkoutBodyEx with total := .num .nan } worldAllOk).1.status = 400 ∧
    (createCheckout cfgEx { checkoutBodyEx with total := .num .nan } worldAllOk).2.trace = [] := by
  have h := invalid_total_rejected cfgEx { checkoutBodyEx with total := .num .nan }
    worldAllOk (by decide) (by decide) (by decide) (by decide)
  have hiv : invalidTotalSpec ({ checkoutBodyEx with total := JsVal.num .nan } : CheckoutBody).total :=
    Or.inl rfl
  exact ⟨((h.1).mpr hiv).1, h.2 hiv⟩

/-- C10: at `/create-checkout`, a guests or nights value of 0 (or any
other falsy value such as the empty string) behaves exactly as if the
field were absent, and with the server configured and the total valid
such a request is rejected 400 "Missing stay details" with no request
issued, so a zero guest or night count never reaches the Payment
Provider. -/
theorem falsy_stay_details (cfg : Config) (b : CheckoutBody) (w : World) (v : JsVal)
    (hv : jsTruthy v = false) :
    createCheckout cfg { b with guests := v } w =
      createCheckout cfg { b with guests := .undef } w ∧
    createCheckout cfg { b with nights := v } w =
      createCheckout cfg { b with nights := .undef } w ∧
    (cfg.squareAccessToken ≠ "" → cfg.squareLocationId ≠ "" →
     cfg.sheetsWebhookUrl ≠ "" → cfg.sheetsWebhookSecret ≠ "" →
     ¬ invalidTotalSpec b.total →
     (createCheckout cfg { b with guests := v } w).1 =
        jsonError 400 "Missing stay details" ∧
     (createCheckout cfg { b with nights := v } w).1 =
        jsonError 400 "Missing stay details" ∧
     (createCheckout cfg { b with guests := v } w).2.trace = [] ∧
     (createCheckout cfg { b with nights := v } w).2.trace = []) := by
  have hfv : jsFalsy v = true := by simp [jsFalsy, hv]
  have hfu : jsFalsy JsVal.undef = true := rfl
  refine ⟨?_, ?_, ?_⟩
  · by_cases e1 : cfg.squareAccessToken = "" ∨ cfg.squareLocationId = ""
    · simp only [createCheckout, if_pos e1]
    · by_cases e2 : cfg.sheetsWebhookUrl = "" ∨ cfg.sheetsWebhookSecret = ""
      · simp only [createCheckout, if_neg e1, if_pos e2]
      · simp only [createCheckout, if_neg e1, if_neg e2]
        rcases htc : toCents b.total with _ | c
        · simp only [htc]
        · simp only [htc]
          by_cases hcc : c = 0 ∨ c < 1
          · rw [if_pos hcc, if_pos hcc]
          · rw [if_neg hcc, if_neg hcc]
            have h1 : (jsFalsy b.checkin || jsFalsy b.checkout || jsFalsy v ||
                jsFalsy b.nights) = true := by simp [hfv]
            have h2 : (jsFalsy b.checkin || jsFalsy b.checkout || jsFalsy JsVal.undef ||
                jsFalsy b.nights) = true := by simp [hfu]
            rw [if_pos h1, if_pos h2]
  · by_cases e1 : cfg.squareAccessToken = "" ∨ cfg.squareLocationId = ""
    · simp only [createCheckout, if_pos e1]
    · by_cases e2 : cfg.sheetsWebhookUrl = "" ∨ cfg.sheetsWebhookSecret = ""
      · simp only [createCheckout, if_neg e1, if_pos e2]
      · simp only [createCheckout, if_neg e1, if_neg e2]
        rcases htc : toCents b.total with _ | c
        · simp only [htc]
        · simp only [htc]
          by_cases hcc : c = 0 ∨ c < 1
          · rw [if_pos hcc, if_pos hcc]
          · rw [if_neg hcc, if_neg hcc]
            have h1 : (jsFalsy b.checkin || jsFalsy b.checkout || jsFalsy b.guests ||
                jsFalsy v) = true := by simp [hfv]
            have h2 : (jsFalsy b.checkin || jsFalsy b.checkout || jsFalsy b.guests ||
                jsFalsy JsVal.undef) = true := by simp [hfu]
            rw [if_pos h1, if_pos h2]
  · intro ha hb hc hd hnot
    obtain ⟨c, htc, hvalid⟩ : ∃ c, toCents b.total = some c ∧ ¬ (c = 0 ∨ c < 1) := by
      rcases h : toCents b.total with _ | c
      · exact absurd (Or.inl h) hnot
      · exact ⟨c, rfl, fun hcc => hnot (Or.inr ⟨c, h, by omega⟩)⟩
    have henv1 : ¬ (cfg.squareAccessToken = "" ∨ cfg.squareLocationId = "") := by
      simp [ha, hb]
    have henv2 : ¬ (cfg.sheetsWebhookUrl = "" ∨ cfg.sheetsWebhookSecret = "") := by
      simp [hc, hd]
    have h1 : (jsFalsy b.checkin || jsFalsy b.checkout || jsFalsy v ||
        jsFalsy b.nights) = true := by simp [hfv]
    have h2 : (jsFalsy b.checkin || jsFalsy b.checkout || jsFalsy b.guests ||
        jsFalsy v) = true := by simp [hfv]
    refine ⟨?_, ?_, ?_, ?_⟩ <;>
      simp only [createCheckout, if_neg henv1, if_neg henv2, htc, if_neg hvalid,
        h1, h2, if_true]

/-- Witness for C10: a guest count of 0 is rejected with 400 "Missing
stay details" and no request is issued. -/
theorem falsy_stay_details_witness :
    (createCheckout cfgEx { checkoutBodyEx with guests := .num (.fin 0) } worldAllOk).1 =
      jsonError 400 "Missing stay details" ∧
    (createCheckout cfgEx { checkoutBodyEx with guests := .num (.fin 0) }
      worldAllOk).2.trace = [] := by
  have h := falsy_stay_details cfgEx checkoutBodyEx worldAllOk (.num (.fin 0)) (by decide)
  have h500 : toCents checkoutBodyEx.total = some 50000 := toCents_500
  have hnot : ¬ invalidTotalSpec checkoutBodyEx.total := by
    rintro (h | ⟨c, hc, hlt⟩)
    · rw [h500] at h
      cases h
    · rw [h500] at hc
      cases hc
      omega
  have h3 := h.2.2 (by decide) (by decide) (by decide) (by decide) hnot
  exact ⟨h3.1, h3.2.2.1⟩


end CTE
